import Mathlib

/-!
Verification development for the home_controller core
(`home_controller/core/backend.py`, `home_controller/core/pinmap_validate.py`).

The Python code is embedded shallowly: pure functions become Lean functions,
the mutable backend state (`self.cfg`, `self._dev_data`) is passed explicitly,
file-system effects are recorded as explicit operation traces, and the
hardware (smbus) boundary is represented by dedicated constructors so that
everything before the first bus transaction is computed exactly as in the
source.  Python `float` values are modelled as `Option ℚ` (`none` = NaN;
the claims under study only involve decimal literals, where rational
arithmetic agrees with float comparison).  Python's arbitrary-precision
nonnegative register values are modelled as `Nat`.
-/

namespace HomeController

/-- `DEFAULT_I2C_BUS_NUM = 1` (fixed bus). -/
def DEFAULT_I2C_BUS_NUM : Int := 1

/-- `VALID_TYPES = ("di", "do", "aio", "i2c", "rs485", "genmon")`. -/
def VALID_TYPES : List String := ["di", "do", "aio", "i2c", "rs485", "genmon"]

/-- `MCP23017_MIN = 0x20`. -/
def MCP23017_MIN : Nat := 0x20

/-- `MCP23017_MAX = 0x27`. -/
def MCP23017_MAX : Nat := 0x27

/-- `AIO_BASE = 0x30`. -/
def AIO_BASE : Nat := 0x30

/-- `AIO_MAX = 0x37`. -/
def AIO_MAX : Nat := 0x37

/-- Python `str.lower()` (ASCII range, which covers every string the
backend lowers: ids, type tags and hex addresses). Character-list based so
that it evaluates inside the kernel. -/
def pyLower (s : String) : String :=
  String.mk (s.data.map Char.toLower)

/-- Python `str.upper()` (ASCII range). -/
def pyUpper (s : String) : String :=
  String.mk (s.data.map Char.toUpper)

/-- Python whitespace for `str.strip()`. -/
def isSpaceChar (c : Char) : Bool :=
  c = ' ' ∨ c = '\t' ∨ c = '\n' ∨ c = '\r' ∨ c = Char.ofNat 11 ∨ c = Char.ofNat 12

/-- Python `str.strip()`. -/
def pyStrip (s : String) : String :=
  String.mk (((s.data.dropWhile isSpaceChar).reverse.dropWhile isSpaceChar).reverse)

/-- Helper of `pySplitComma`. -/
def splitCommaAux : List Char → List Char → List String
  | [], acc => [String.mk acc.reverse]
  | c :: rest, acc =>
    if c = ',' then String.mk acc.reverse :: splitCommaAux rest []
    else splitCommaAux rest (c :: acc)

/-- Python `s.split(",")` (note `"".split(",") == [""]`). -/
def pySplitComma (s : String) : List String :=
  splitCommaAux s.data []

/-- Python `sep.join(parts)`. -/
def joinWith (sep : String) : List String → String
  | [] => ""
  | [x] => x
  | x :: xs => x ++ sep ++ joinWith sep xs

/-- Dataclass `ModuleEntry`: a configured module. -/
structure ModuleEntry where
  id : String
  type : String
  address_hex : String
  name : String := ""
  deriving Repr, DecidableEq, Inhabited

/-- Dataclass `ControllerConfig`. -/
structure ControllerConfig where
  controller_name : String := "Home Controller"
  notes : String := ""
  i2c_bus_num : Int := DEFAULT_I2C_BUS_NUM
  modules : List ModuleEntry := []
  deriving Repr, DecidableEq, Inhabited

/-- Value of a lowercase or uppercase hexadecimal digit character. -/
def hexVal (c : Char) : Nat :=
  if c.isDigit then c.toNat - 48
  else if 'a' ≤ c ∧ c ≤ 'f' then c.toNat - 87
  else c.toNat - 55

/-- Is `c` a hexadecimal digit (either case)? -/
def isHexDig (c : Char) : Bool :=
  c.isDigit || ('a' ≤ c && c ≤ 'f') || ('A' ≤ c && c ≤ 'F')

/-- Digit-sequence part of Python `int(s, 16)`: hex digits with single
underscores allowed between digits (not leading, trailing or doubled). -/
def parseHexCore : List Char → Nat → Option Nat
  | [], acc => some acc
  | c :: rest, acc =>
    if isHexDig c then parseHexCore rest (16 * acc + hexVal c)
    else if c = '_' then
      match rest with
      | [] => none
      | c2 :: rest2 =>
        if isHexDig c2 then parseHexCore rest2 (16 * acc + hexVal c2) else none
    else none

/-- First digit (or, after a base prefix, an underscore followed by a digit). -/
def parseHexStart (afterPrefix : Bool) (cs : List Char) : Option Nat :=
  match cs with
  | [] => none
  | c :: rest =>
    if isHexDig c then parseHexCore rest (hexVal c)
    else if afterPrefix && c = '_' then
      match rest with
      | [] => none
      | c2 :: rest2 => if isHexDig c2 then parseHexCore rest2 (hexVal c2) else none
    else none

/-- Python `int(s, 16)` on an already-stripped token: optional sign,
optional `0x`/`0X` prefix, then hex digits. Returns `none` where Python
raises `ValueError`. -/
def pyIntHex (s : String) : Option Int :=
  let cs := s.data
  let signed : Bool × List Char :=
    match cs with
    | '-' :: r => (true, r)
    | '+' :: r => (false, r)
    | _ => (false, cs)
  let body : Option Nat :=
    match signed.2 with
    | '0' :: 'x' :: r => parseHexStart true r
    | '0' :: 'X' :: r => parseHexStart true r
    | other => parseHexStart false other
  body.map (fun n => if signed.1 then -(n : Int) else (n : Int))

/-- Hexadecimal digit character (lowercase), for `n < 16`. -/
def hexChar (n : Nat) : Char :=
  if n < 10 then Char.ofNat (48 + n) else Char.ofNat (87 + n)

/-- The Python format `f"0x..."` with `02x`, for values up to `0xff`. -/
def toHex2 (v : Nat) : String :=
  String.mk ['0', 'x', hexChar (v / 16 % 16), hexChar (v % 16)]

/-- `normalize_address`: accepts `"0x21"` or `"21"`, always hexadecimal,
error if blank or outside `[0, 0x7F]`; returns the canonical lowercase
hex form and the integer value (nonnegative on success, hence `Nat`). -/
def normalize_address (addr : String) : Except String (String × Nat) :=
  let s := pyLower (pyStrip addr)
  if s = "" then .error "Address is blank"
  else
    match pyIntHex s with
    | none => .error ("invalid literal for int with base 16: " ++ addr)
    | some val =>
      if val < 0 ∨ (0x7F : Int) < val then .error ("I2C address out of range: " ++ addr)
      else .ok (toHex2 val.toNat, val.toNat)

/-- `_module_id`: `"i2c<bus>-<addr_hex.lower()>"` with the fixed bus number. -/
def module_id (address_hex : String) : String :=
  "i2c" ++ toString DEFAULT_I2C_BUS_NUM ++ "-" ++ pyLower address_hex

/-- `_find_module_index`: first index whose id matches case-insensitively.
Python returns the index or `-1`; the callers immediately fetch
`self.cfg.modules[i]`, so the embedding returns the index paired with the
entry at that index (`none` for `-1`). -/
def find_module_index (mods : List ModuleEntry) (mid : String) : Option (Nat × ModuleEntry) :=
  mods.enum.find? (fun p => pyLower p.2.id == pyLower mid)

/-- `add_module`: validates the type, takes the address verbatim (stripped
only — the source explicitly applies no normalization and no guardrails),
derives the id, rejects a duplicate, appends the entry. -/
def add_module (cfg : ControllerConfig) (mtype address name : String) :
    Except String (ControllerConfig × ModuleEntry) :=
  let mt := pyLower (pyStrip mtype)
  if !(VALID_TYPES.contains mt) then .error ("Invalid module type: " ++ mt)
  else
    let address_hex := pyStrip address
    let mid := module_id address_hex
    match find_module_index cfg.modules mid with
    | some _ => .error ("Module already exists: " ++ mid)
    | none =>
      let entry : ModuleEntry := ⟨mid, mt, address_hex, pyStrip name⟩
      .ok ({ cfg with modules := cfg.modules ++ [entry] }, entry)

/-- `remove_module`. -/
def remove_module (cfg : ControllerConfig) (midArg : String) :
    Except String ControllerConfig :=
  let mid := pyStrip midArg
  match find_module_index cfg.modules mid with
  | none => .error ("Module not found: " ++ mid)
  | some (idx, _) => .ok { cfg with modules := cfg.modules.eraseIdx idx }

/-- `rename_module`. -/
def rename_module (cfg : ControllerConfig) (midArg new_name : String) :
    Except String ControllerConfig :=
  let mid := pyStrip midArg
  match find_module_index cfg.modules mid with
  | none => .error ("Module not found: " ++ mid)
  | some (idx, m) =>
    .ok { cfg with modules := cfg.modules.set idx { m with name := pyStrip new_name } }

/-- `change_module_address`: finds the module, normalizes the new address,
applies the type-specific guardrails, rejects a collision with a different
module, then mutates address and id in place. -/
def change_module_address (cfg : ControllerConfig) (midArg new_address : String) :
    Except String (ControllerConfig × ModuleEntry) :=
  let mid := pyStrip midArg
  match find_module_index cfg.modules mid with
  | none => .error ("Module not found: " ++ mid)
  | some (idx, m) =>
    match normalize_address new_address with
    | .error e => .error e
    | .ok (address_hex, address_int) =>
      if (m.type = "di" ∨ m.type = "do") ∧
          ¬(MCP23017_MIN ≤ address_int ∧ address_int ≤ MCP23017_MAX) then
        .error "DI/DO addresses must be in 0x20–0x27 (MCP23017 default range)"
      else if m.type = "aio" ∧ ¬(AIO_BASE ≤ address_int ∧ address_int ≤ AIO_MAX) then
        .error "AIO addresses must be in 0x30–0x37 (AIO base + 3 DIP bits)"
      else
        let new_mid := module_id address_hex
        let m' : ModuleEntry := { m with address_hex := address_hex, id := new_mid }
        match find_module_index cfg.modules new_mid with
        | some (existing, _) =>
          if existing ≠ idx then
            .error ("Another module already uses address " ++ address_hex)
          else
            .ok ({ cfg with modules := cfg.modules.set idx m' }, m')
        | none => .ok ({ cfg with modules := cfg.modules.set idx m' }, m')

/-! ## Device I/O engine and simulation substrate -/

/-- Python `float` values: `some q` is a finite value, `none` is NaN
(a token `float()` cannot parse becomes NaN in the source; infinities are
likewise collapsed to `none`, which no studied claim exercises). -/
abbrev PyFloat := Option ℚ

/-- Python `v > maxv` on a float against a finite ceiling: `False` for NaN. -/
def gtF (v : PyFloat) (maxv : ℚ) : Bool :=
  match v with
  | some q => decide (maxv < q)
  | none => false

/-- Value of a decimal digit run (`none` unless non-empty and all digits). -/
def decDigits (cs : List Char) : Option Nat :=
  if cs ≠ [] ∧ cs.all Char.isDigit then
    some (cs.foldl (fun a c => 10 * a + (c.toNat - 48)) 0)
  else none

/-- Python `float(token)` on a stripped token, modelled over ℚ: optional
sign, decimal digits with an optional fraction part, optional `e`/`E`
exponent.  `none` stands both for a parse failure (the source then stores
NaN) and for the special tokens nan/inf, which are not ℚ values. -/
def pyParseFloat (s : String) : Option ℚ :=
  let cs := (pyStrip s).data
  let signed : Bool × List Char :=
    match cs with
    | '-' :: r => (true, r)
    | '+' :: r => (false, r)
    | _ => (false, cs)
  let mant := signed.2.takeWhile (fun c => c ≠ 'e' ∧ c ≠ 'E')
  let expPart := signed.2.drop mant.length
  let intPart := mant.takeWhile (fun c => c ≠ '.')
  let dotFrac := mant.drop intPart.length
  let fracOk : Option (List Char) :=
    match dotFrac with
    | [] => some []
    | '.' :: f => if f.all Char.isDigit then some f else none
    | _ => none
  let expVal : Option Int :=
    match expPart with
    | [] => some 0
    | _ :: rest =>
      match rest with
      | '-' :: ds => (decDigits ds).map (fun n => -(n : Int))
      | '+' :: ds => (decDigits ds).map (fun n => (n : Int))
      | ds => (decDigits ds).map (fun n => (n : Int))
  match fracOk, expVal with
  | some f, some e =>
    if intPart = [] ∧ f = [] then none
    else if !(intPart.all Char.isDigit) then none
    else
      let ip : Nat := intPart.foldl (fun a c => 10 * a + (c.toNat - 48)) 0
      let fp : Nat := f.foldl (fun a c => 10 * a + (c.toNat - 48)) 0
      let base : ℚ := (ip : ℚ) + (fp : ℚ) / ((10 : ℚ) ^ f.length)
      let scaled : ℚ := if 0 ≤ e then base * (10 : ℚ) ^ e.toNat else base / (10 : ℚ) ^ (-e).toNat
      some (if signed.1 then -scaled else scaled)
  | _, _ => none

/-- Python `str(v)` for a float, used only to build simulated
`raw_response` strings; rendered exactly for values whose denominator
divides a power of ten (all values the source produces in the studied
paths), `"nan"` for NaN.  No claim depends on this rendering. -/
def pyFloatRepr (v : PyFloat) : String :=
  match v with
  | none => "nan"
  | some q =>
    let sign := if q < 0 then "-" else ""
    let n := q.num.natAbs
    let d := q.den
    match (List.range 19).find? (fun k => d ∣ 10 ^ k) with
    | some k =>
      let scaled := n * (10 ^ k / d)
      let ip := scaled / 10 ^ k
      let fr := scaled % 10 ^ k
      let frDigits := (Nat.toDigits 10 (10 ^ k + fr)).drop 1
      let frTrimmed := (frDigits.reverse.dropWhile (fun c => c = '0')).reverse
      let frStr := if frTrimmed = [] then "0" else String.mk frTrimmed
      sign ++ toString ip ++ "." ++ frStr
    | none => sign ++ toString n ++ "/" ++ toString d

/-- A simulation record (one value of the dev-mode JSON table).  Field
presence models dictionary-key presence; `gpio_a`/`gpio_b` integers are
taken nonnegative (8-bit port states). -/
structure DevEntry where
  gpio_a : Option Nat := none
  gpio_b : Option Nat := none
  channels : Option (List PyFloat) := none
  raw_response : Option String := none
  deriving Repr, DecidableEq, Inhabited

/-- The dev-mode table `self._dev_data`, keyed by lowercase hex address;
an ordered association list models Python dict insertion order. -/
abbrev DevData := List (String × DevEntry)

/-- Dict lookup (first matching key). -/
def dictGet (d : DevData) (k : String) : Option DevEntry :=
  (d.find? (fun kv => kv.1 == k)).map (fun kv => kv.2)

/-- Dict update: replace the value at `k`, or append a new binding. -/
def dictSet (d : DevData) (k : String) (v : DevEntry) : DevData :=
  if d.any (fun kv => kv.1 == k) then
    d.map (fun kv => if kv.1 == k then (k, v) else kv)
  else d ++ [(k, v)]

/-- An over-voltage `Alert` record. -/
structure Alert where
  module : String
  address : String
  channel : Nat
  max_voltage : ℚ
  measured_voltage : PyFloat
  timestamp : String
  deriving Repr, DecidableEq

/-- Per-module voltage-ceiling document (`load_aio_max_voltage`), keyed by
channel number rendered as a string; a `none` value models an entry
`float()` cannot convert (the source then leaves `maxv = None`). -/
structure AioMaxCfg where
  inCfg : List (String × Option ℚ) := []
  outCfg : List (String × Option ℚ) := []
  deriving Repr, DecidableEq, Inhabited

/-- The read/write result dictionary; `none` fields model absent keys. -/
structure ResultDict where
  ok : Bool
  error : Option String := none
  module_id : Option String := none
  type : Option String := none
  address : Option String := none
  gpio_a : Option Nat := none
  gpio_b : Option Nat := none
  channelsD : Option (List (String × Nat)) := none
  raw_response : Option String := none
  channelsA : Option (List (String × PyFloat)) := none
  alerts : Option (List Alert) := none
  deriving Repr, DecidableEq

/-- Channel map of two port bytes: channel `k ∈ [1,8]` is bit `k-1` of
GPIO-A, channel `k ∈ [9,16]` is bit `k-9` of GPIO-B. -/
def digital_channels (a b : Nat) : List (String × Nat) :=
  (List.range 8).map (fun i => (toString (i + 1), if (a >>> i) &&& 1 = 1 then 1 else 0)) ++
  (List.range 8).map (fun i => (toString (9 + i), if (b >>> i) &&& 1 = 1 then 1 else 0))

/-- `[p.strip() for p in s.split(",") if p.strip()]`. -/
def splitCsv (s : String) : List String :=
  (pySplitComma s).filterMap (fun p =>
    let p' := pyStrip p
    if p' = "" then none else some p')

/-- Dev-table lookup used by `read_module`: exact address first, then the
structural-compatibility fallback scan in table order. -/
def dev_lookup (dev_data : DevData) (addr_key mtype : String) : Option DevEntry :=
  match dictGet dev_data addr_key with
  | some d => some d
  | none =>
    (dev_data.find? (fun kv =>
      (mtype == "aio" && (kv.2.raw_response.isSome || kv.2.channels.isSome)) ||
      ((mtype == "di" || mtype == "do") &&
        (kv.2.gpio_a.isSome || kv.2.gpio_b.isSome)))).map (fun kv => kv.2)

/-- Outcome of `read_module` up to the hardware boundary: `raiseNotFound`
is the raised `ValueError`, `ret` an early (dev-mode) return, and `hwRead`
marks the fall-through into the smbus section. -/
inductive ReadStep where
  | raiseNotFound (msg : String)
  | ret (r : ResultDict)
  | hwRead (m : ModuleEntry)
  deriving Repr, DecidableEq

/-- `read_module` (registry resolution plus the dev-mode branches). -/
def read_module (cfg : ControllerConfig) (dev_mode : Bool) (dev_data : DevData)
    (midArg : String) : ReadStep :=
  match find_module_index cfg.modules midArg with
  | none => .raiseNotFound ("Module not found: " ++ midArg)
  | some (_, m) =>
    let addr_key := pyLower m.address_hex
    let devOpt := if dev_mode then dev_lookup dev_data addr_key m.type else none
    match devOpt with
    | some dev =>
      if m.type == "di" || m.type == "do" then
        let a := dev.gpio_a.getD 0
        let b := dev.gpio_b.getD 0
        .ret { ok := true, module_id := some m.id, type := some m.type,
               address := some m.address_hex, gpio_a := some a, gpio_b := some b,
               channelsD := some (digital_channels a b) }
      else if m.type == "aio" then
        let values : List PyFloat :=
          match dev.raw_response with
          | some s => (splitCsv s).map pyParseFloat
          | none => dev.channels.getD []
        let max_ch := min values.length 8
        let channels := (List.range max_ch).map (fun i => (toString (i + 1), values.getD i none))
        let raw :=
          match dev.raw_response with
          | some s => s
          | none => joinWith "," (values.map pyFloatRepr)
        .ret { ok := true, module_id := some m.id, type := some m.type,
               address := some m.address_hex, raw_response := some raw,
               channelsA := some channels }
      else .hwRead m
    | none => .hwRead m

/-- The hardware-path AIO read continuation (lines after the bus
transaction): `rawText` is the decoded byte block; the embedding performs
the null-byte truncation, CSV decode, and the over-voltage alert pass. -/
def read_module_hw_aio (m : ModuleEntry) (rawText : String) (max_cfg : AioMaxCfg)
    (ts : String) : ResultDict :=
  let s := pyStrip (String.mk (rawText.data.takeWhile (fun c => c ≠ Char.ofNat 0)))
  if s = "" then { ok := false, error := some "empty response from AIO module" }
  else
    let values := (splitCsv s).map pyParseFloat
    let max_ch := min values.length 8
    let channels := (List.range max_ch).map (fun i => (toString (i + 1), values.getD i none))
    let alerts := (List.range' 1 max_ch).filterMap (fun ch =>
      let v := values.getD (ch - 1) none
      let maxv : Option ℚ :=
        match (max_cfg.inCfg.find? (fun kv => kv.1 == toString ch)).map (fun kv => kv.2) with
        | some (some q) => some q
        | _ => none
      match maxv with
      | some mq => if gtF v mq then some ⟨m.id, m.address_hex, ch, mq, v, ts⟩ else none
      | none => none)
    { ok := true, module_id := some m.id, type := some m.type,
      address := some m.address_hex, raw_response := some s,
      channelsA := some channels, alerts := some alerts }

/-- Python `int(x)` on a finite float/rational: truncation toward zero. -/
def pyInt (q : ℚ) : Int :=
  if q < 0 then -(Rat.floor (-q)) else Rat.floor q

/-- Outcome of `write_module` up to the hardware boundary: `ret` carries
the returned dictionary and the (possibly updated) dev table; `hwDoWrite`
and `aioRs485` mark the real-hardware MCP23017 write sequence and the
RS-485 placeholder path. -/
inductive WriteStep where
  | raiseNotFound (msg : String)
  | ret (r : ResultDict) (dev : DevData)
  | hwDoWrite (m : ModuleEntry) (port : Char) (bit : Nat) (value01 : Nat)
  | aioRs485 (m : ModuleEntry) (ch : Nat) (voltage : ℚ)
  deriving Repr, DecidableEq

/-- `write_module` (validation plus the dev-mode branches; the bit clear
`cur & ~(1 << bit)` on a nonnegative int is `Nat.ldiff`). -/
def write_module (cfg : ControllerConfig) (dev_mode : Bool) (dev_data : DevData)
    (midArg : String) (channel : Int) (value : ℚ) : WriteStep :=
  match find_module_index cfg.modules midArg with
  | none => .raiseNotFound ("Module not found: " ++ midArg)
  | some (_, m) =>
    if m.type == "do" then
      if ¬(1 ≤ channel ∧ channel ≤ 16) then
        .ret { ok := false, error := some "channel must be 1..16" } dev_data
      else if pyInt value ≠ 0 ∧ pyInt value ≠ 1 then
        .ret { ok := false, error := some "value must be 0 or 1" } dev_data
      else
        let port : Char := if channel ≤ 8 then 'a' else 'b'
        let bit : Nat := if channel ≤ 8 then (channel - 1).toNat else (channel - 9).toNat
        if dev_mode then
          let addrk := pyLower m.address_hex
          let dev := (dictGet dev_data addrk).getD {}
          let a0 := dev.gpio_a.getD 0
          let b0 := dev.gpio_b.getD 0
          let cur := if port = 'a' then a0 else b0
          let newv := if pyInt value = 1 then cur ||| (1 <<< bit) else Nat.ldiff cur (1 <<< bit)
          let a1 := if port = 'a' then newv &&& 0xFF else a0
          let b1 := if port = 'a' then b0 else newv &&& 0xFF
          let dev_out : DevEntry := { gpio_a := some a1, gpio_b := some b1 }
          let dev2 := dictSet dev_data addrk dev_out
          .ret { ok := true, module_id := some m.id, type := some m.type,
                 address := some m.address_hex, gpio_a := some a1, gpio_b := some b1,
                 channelsD := some (digital_channels a1 b1) } dev2
        else
          .hwDoWrite m port bit (if pyInt value = 1 then 1 else 0)
    else if m.type == "aio" then
      if ¬(1 ≤ channel ∧ channel ≤ 8) then
        .ret { ok := false, error := some "channel must be 1..8 for AIO" } dev_data
      else
        let voltage := value
        if dev_mode then
          let addrk := pyLower m.address_hex
          let dev := (dictGet dev_data addrk).getD {}
          let existing := (dev.channels.getD []).take 8
          let chans0 : List PyFloat := (List.range 8).map (fun i => existing.getD i (some 0))
          let chans := chans0.set (channel - 1).toNat (some voltage)
          let raw := joinWith "," (chans.map pyFloatRepr)
          let dev_out : DevEntry := { channels := some chans, raw_response := some raw }
          let dev2 := dictSet dev_data addrk dev_out
          let channels := (List.range 8).map (fun i => (toString (i + 1), chans.getD i (some 0)))
          .ret { ok := true, module_id := some m.id, type := some m.type,
                 address := some m.address_hex, raw_response := some raw,
                 channelsA := some channels } dev2
        else .aioRs485 m channel.toNat voltage
    else
      .ret { ok := false, error := some "write not supported for this module type" } dev_data

/-! ## Registry store persistence -/

/-- A raw stored module record as read back from the JSON store; absent
fields model missing dictionary keys (Python applies `str()` to present
values, so present values are strings). -/
structure RawModule where
  id : Option String := none
  type : Option String := none
  address_hex : Option String := none
  name : Option String := none
  deriving Repr, DecidableEq, Inhabited

/-- The raw registry document; `none` keys fall back to defaults on load. -/
structure RawConfigDoc where
  controller_name : Option String := none
  notes : Option String := none
  i2c_bus_num : Option Int := none
  modules : List RawModule := []
  deriving Repr, DecidableEq, Inhabited

/-- Per-record parsing inside `load_config`: a record missing `id`, `type`
or `address_hex` raises inside the `try` and is skipped (`none`);
`name` defaults to the empty string. -/
def parse_module_entry (m : RawModule) : Option ModuleEntry :=
  match m.id, m.type, m.address_hex with
  | some i, some t, some a => some ⟨i, pyLower t, pyLower a, m.name.getD ""⟩
  | _, _, _ => none

/-- `load_config`: `none` is a missing store file (default config, no
error); otherwise malformed records are dropped by `parse_module_entry`. -/
def load_config : Option RawConfigDoc → ControllerConfig
  | none => {}
  | some raw =>
    { controller_name := raw.controller_name.getD "Home Controller",
      notes := raw.notes.getD "",
      i2c_bus_num := raw.i2c_bus_num.getD DEFAULT_I2C_BUS_NUM,
      modules := raw.modules.filterMap parse_module_entry }

/-- One file-system effect, as performed by the save paths. -/
inductive FileOp where
  | makedirs (dir : String)
  | write (path content : String)
  | replace (src dst : String)
  deriving Repr, DecidableEq

/-- Effect trace of `save_config`: `os.makedirs` on the parent directory,
then a single direct `open(path, "w")`/`json.dump` on the store path
itself (JSON rendering abstracted as `doc`). -/
def save_config_ops (config_dir config_path doc : String) : List FileOp :=
  [.makedirs config_dir, .write config_path doc]

/-- Effect trace of `_save_dev_data` (for a configured dev file): write the
document to `<file>.tmp`, then `os.replace` it over the target. -/
def save_dev_data_ops (dev_dir dev_file doc : String) : List FileOp :=
  [.makedirs dev_dir, .write (dev_file ++ ".tmp") doc, .replace (dev_file ++ ".tmp") dev_file]

/-! ## Pinmap contract validator (cross-module pass) -/

/-- A loaded wiring map, abstracted to the total pin-to-net view the
validator consumes: `_get_pin_net` yields the entry's net string, or `""`
when the pin (or its net) is absent. -/
abbrev Pinmap := List (Nat × String)

/-- `_get_pin_net`. -/
def get_pin_net (pm : Pinmap) (pin : Nat) : String :=
  ((pm.find? (fun kv => kv.1 == pin)).map (fun kv => kv.2)).getD ""

/-- The joined per-module report inside the `[CROSS]` message. -/
def crossJoin (seen : List (String × String)) : String :=
  joinWith ", " (seen.map (fun kv => kv.1 ++ "='" ++ kv.2 ++ "'"))

/-- The cross-module check for one pin: collect each loaded module's net,
uppercase them, and emit one error exactly when more than one distinct
value remains (`len(unique) > 1`). -/
def cross_error_for (mods : List (String × Pinmap)) (p : Nat) : Option String :=
  let seen := mods.map (fun mp => (mp.1, get_pin_net mp.2 p))
  let uniq := (seen.map (fun kv => pyUpper kv.2)).dedup
  if uniq.length > 1 then
    some ("[CROSS] Pin " ++ toString p ++ " differs across modules: " ++ crossJoin seen)
  else none

/-- The cross-module pass of `validate`: pins 21..30 over all successfully
loaded maps (no errors at all when no map loaded). -/
def cross_errors (mods : List (String × Pinmap)) : List String :=
  if mods.isEmpty then [] else (List.range' 21 10).filterMap (cross_error_for mods)

/-! ## Verification -/

instance instDecEqExcept {ε α : Type} [DecidableEq ε] [DecidableEq α] :
    DecidableEq (Except ε α) := fun a b =>
  match a, b with
  | .ok x, .ok y => if h : x = y then .isTrue (by rw [h]) else .isFalse (by simp [h])
  | .error x, .error y => if h : x = y then .isTrue (by rw [h]) else .isFalse (by simp [h])
  | .ok _, .error _ => .isFalse (by simp)
  | .error _, .ok _ => .isFalse (by simp)

/-- Every canonical two-digit hex form of a 7-bit address re-normalizes to
itself with the same value. -/
theorem normalize_canonical :
    ∀ v : Fin 128, normalize_address (toHex2 v.val) = .ok (toHex2 v.val, v.val) := by
  decide

/-- C8: address normalization is idempotent — whenever `normalize_address`
succeeds on `x` with canonical hex form `h` and value `v`, running it again
on `h` returns the same pair `(h, v)`. -/
theorem C8_normalize_idempotent (x h : String) (v : Nat)
    (hnorm : normalize_address x = .ok (h, v)) :
    normalize_address h = .ok (h, v) := by
  have hform : h = toHex2 v ∧ v < 128 := by
    simp only [normalize_address] at hnorm
    split at hnorm
    · exact absurd hnorm (by simp)
    · split at hnorm
      · exact absurd hnorm (by simp)
      · rename_i val heq
        split at hnorm
        · exact absurd hnorm (by simp)
        · rename_i hrange
          obtain ⟨h1, h2⟩ := Prod.mk.injEq .. ▸ Except.ok.inj hnorm
          push_neg at hrange
          refine ⟨h1 ▸ h2 ▸ rfl, ?_⟩
          omega
  obtain ⟨rfl, hlt⟩ := hform
  exact normalize_canonical ⟨v, hlt⟩

/-- Witness for C8 at a concrete input: `" 0X21 "` normalizes to
`("0x21", 33)` and the canonical form re-normalizes to itself. -/
theorem C8_normalize_idempotent_witness :
    normalize_address "0x21" = .ok ("0x21", 33) :=
  C8_normalize_idempotent " 0X21 " "0x21" 33 (by decide)

/-- C1 is false on the code: `add_module` applies no guardrail at all, so a
digital module at `0x10` — outside `[0x20, 0x27]` — is accepted, and the
address is not normalized either (`"21"` is stored verbatim, not `"0x21"`). -/
theorem C1_counterexample :
    add_module {} "di" "0x10" "" =
      .ok ({ modules := [⟨"i2c1-0x10", "di", "0x10", ""⟩] },
           ⟨"i2c1-0x10", "di", "0x10", ""⟩) ∧
    add_module {} "di" "21" "" =
      .ok ({ modules := [⟨"i2c1-21", "di", "21", ""⟩] },
           ⟨"i2c1-21", "di", "21", ""⟩) := by
  exact ⟨by decide, by decide⟩

/-- C1 (amended): `add_module` validates the type against the closed set
and fails on an id collision, but performs no address normalization and no
guardrail-range check — any stripped address string is stored verbatim. -/
theorem C1_add_no_guardrails (cfg : ControllerConfig) (mtype address name : String)
    (ht : VALID_TYPES.contains (pyLower (pyStrip mtype)) = true) :
    (find_module_index cfg.modules (module_id (pyStrip address)) = none →
      add_module cfg mtype address name =
        .ok ({ cfg with modules := cfg.modules ++
                [⟨module_id (pyStrip address), pyLower (pyStrip mtype), pyStrip address,
                  pyStrip name⟩] },
             ⟨module_id (pyStrip address), pyLower (pyStrip mtype), pyStrip address,
              pyStrip name⟩))
    ∧ ∀ p, find_module_index cfg.modules (module_id (pyStrip address)) = some p →
      add_module cfg mtype address name =
        .error ("Module already exists: " ++ module_id (pyStrip address)) := by
  have hmem : pyLower (pyStrip mtype) ∈ VALID_TYPES := by simpa using ht
  constructor
  · intro hnone
    simp [add_module, hnone, hmem]
  · intro p hsome
    simp [add_module, hsome, hmem]

/-- Witness for C1 (amended): adding a digital module at the out-of-range
address `0x50` succeeds against an empty registry. -/
theorem C1_add_no_guardrails_witness :
    add_module { modules := [] } "di" "0x50" "n" =
      .ok ({ modules := [⟨"i2c1-0x50", "di", "0x50", "n"⟩] },
           ⟨"i2c1-0x50", "di", "0x50", "n"⟩) :=
  (C1_add_no_guardrails { modules := [] } "di" "0x50" "n" (by decide)).1 (by decide)

/-- C3 is false on the code: the `save_config` effect trace writes the
store path directly and contains no rename step, so mid-write the store
path holds a partially written document. -/
theorem C3_counterexample :
    ((save_config_ops "home_controller/config" "home_controller/config/config.json"
        "<json>").any
      (fun op => match op with
        | .write p _ => p == "home_controller/config/config.json"
        | _ => false)) = true ∧
    ((save_config_ops "home_controller/config" "home_controller/config/config.json"
        "<json>").any
      (fun op => match op with | .replace _ _ => true | _ => false)) = false := by
  exact ⟨rfl, rfl⟩

/-- C3 (amended): only the simulation-table save is atomic —
`_save_dev_data` never writes the target file directly, writing
`<file>.tmp` and renaming it into place — while the registry save
`save_config` performs no rename at all. -/
theorem C3_dev_save_atomic (dev_dir dev_file doc : String) :
    ((save_dev_data_ops dev_dir dev_file doc).any
      (fun op => match op with | .write p _ => p == dev_file | _ => false)) = false ∧
    FileOp.replace (dev_file ++ ".tmp") dev_file ∈ save_dev_data_ops dev_dir dev_file doc ∧
    ∀ cdir cpath d, ((save_config_ops cdir cpath d).any
      (fun op => match op with | .replace _ _ => true | _ => false)) = false := by
  refine ⟨?_, ?_, ?_⟩
  · have hne : (dev_file ++ ".tmp" == dev_file) = false := by
      rw [beq_eq_false_iff_ne]
      intro hcontr
      have hlen := congrArg String.length hcontr
      rw [String.length_append] at hlen
      simp at hlen
      exact absurd hlen (by decide)
    simp [save_dev_data_ops, hne]
  · simp [save_dev_data_ops]
  · intro cdir cpath d
    rfl

/-- C7: loading the registry with a missing store file returns the default
configuration with an empty module list and no error; a malformed module
record is silently skipped on load while every well-formed record is still
loaded. -/
theorem C7_load_lenient :
    load_config none = { controller_name := "Home Controller", notes := "",
                         i2c_bus_num := 1, modules := [] } ∧
    (∀ (d : RawConfigDoc) (pre post : List RawModule) (bad : RawModule),
      parse_module_entry bad = none →
      load_config (some { d with modules := pre ++ bad :: post }) =
        load_config (some { d with modules := pre ++ post })) ∧
    (∀ (d : RawConfigDoc) (r : RawModule) (e : ModuleEntry),
      r ∈ d.modules → parse_module_entry r = some e →
      e ∈ (load_config (some d)).modules) := by
  refine ⟨rfl, ?_, ?_⟩
  · intro d pre post bad hbad
    simp [load_config, List.filterMap_append, List.filterMap_cons, hbad]
  · intro d r e hr he
    simp only [load_config]
    exact List.mem_filterMap.2 ⟨r, hr, he⟩

/-- A stored record that parses (type and address are lowercased on load). -/
def C7goodR : RawModule :=
  { id := some "i2c1-0x21", type := some "DO", address_hex := some "0X21", name := some "lamp" }

/-- A malformed stored record (no id/type/address keys). -/
def C7badR : RawModule := { name := some "orphan" }

/-- Witness for C7 on concrete documents: the missing store gives the
default config, the malformed record is dropped, the good one survives. -/
theorem C7_load_lenient_witness :
    load_config none = { controller_name := "Home Controller", notes := "",
                         i2c_bus_num := 1, modules := [] } ∧
    load_config (some { modules := [C7goodR, C7badR] }) =
      load_config (some { modules := [C7goodR] }) ∧
    (⟨"i2c1-0x21", "do", "0x21", "lamp"⟩ : ModuleEntry) ∈
      (load_config (some { modules := [C7goodR, C7badR] })).modules := by
  refine ⟨C7_load_lenient.1, ?_, ?_⟩
  · exact C7_load_lenient.2.1 {} [C7goodR] [] C7badR (by decide)
  · exact C7_load_lenient.2.2 { modules := [C7goodR, C7badR] } C7goodR
      ⟨"i2c1-0x21", "do", "0x21", "lamp"⟩ (by decide) (by decide)

/-- A deduplicated list keeps more than one element exactly when the
original list holds two different elements. -/
theorem one_lt_dedup_length_iff {α : Type} [DecidableEq α] (l : List α) :
    1 < l.dedup.length ↔ ∃ a ∈ l, ∃ b ∈ l, a ≠ b := by
  constructor
  · intro hlen
    rcases hd : l.dedup with _ | ⟨a, _ | ⟨b, t⟩⟩
    · rw [hd] at hlen; simp at hlen
    · rw [hd] at hlen; simp at hlen
    · have ha : a ∈ l := List.mem_dedup.1 (hd ▸ List.mem_cons_self a _)
      have hb : b ∈ l :=
        List.mem_dedup.1 (hd ▸ List.mem_cons_of_mem a (List.mem_cons_self b t))
      have hnd := l.nodup_dedup
      rw [hd] at hnd
      have hab : a ≠ b := by
        intro hcontr
        subst hcontr
        exact (List.nodup_cons.1 hnd).1 (List.mem_cons_self a t)
      exact ⟨a, ha, b, hb, hab⟩
  · rintro ⟨a, ha, b, hb, hab⟩
    by_contra hcontr
    push_neg at hcontr
    have ha' : a ∈ l.dedup := List.mem_dedup.2 ha
    have hb' : b ∈ l.dedup := List.mem_dedup.2 hb
    rcases hd : l.dedup with _ | ⟨x, _ | ⟨y, t⟩⟩
    · rw [hd] at ha'; simp at ha'
    · rw [hd] at ha' hb'
      simp at ha' hb'
      exact hab (ha'.trans hb'.symm)
    · rw [hd] at hcontr; simp at hcontr

/-- The uppercased nets seen by the cross pass for one pin. -/
theorem dedup_nets_iff (mods : List (String × Pinmap)) (p : Nat) :
    1 < ((mods.map (fun mp => pyUpper (get_pin_net mp.2 p))).dedup.length) ↔
      ∃ e1 ∈ mods, ∃ e2 ∈ mods,
        pyUpper (get_pin_net e1.2 p) ≠ pyUpper (get_pin_net e2.2 p) := by
  rw [one_lt_dedup_length_iff]
  constructor
  · rintro ⟨a, ha, b, hb, hab⟩
    obtain ⟨e1, he1, rfl⟩ := List.mem_map.1 ha
    obtain ⟨e2, he2, rfl⟩ := List.mem_map.1 hb
    exact ⟨e1, he1, e2, he2, hab⟩
  · rintro ⟨e1, he1, e2, he2, hne⟩
    exact ⟨_, List.mem_map_of_mem _ he1, _, List.mem_map_of_mem _ he2, hne⟩

/-- C9: the cross-module pass emits an error for a pin exactly when two
loaded maps disagree case-insensitively on that pin's net; on two maps
disagreeing only on pin 25 the whole pass yields exactly one error, and it
names pin 25. -/
theorem C9_cross_module_pass :
    (∀ (mods : List (String × Pinmap)) (p : Nat),
      (cross_error_for mods p).isSome ↔
        ∃ e1 ∈ mods, ∃ e2 ∈ mods,
          pyUpper (get_pin_net e1.2 p) ≠ pyUpper (get_pin_net e2.2 p)) ∧
    cross_errors [("di", [(25, "SIG_A")]), ("do", [(25, "SIG_B")])] =
      ["[CROSS] Pin 25 differs across modules: di='SIG_A', do='SIG_B'"] := by
  constructor
  · intro mods p
    rw [← dedup_nets_iff mods p]
    simp only [cross_error_for]
    split
    · rename_i hgt
      simp only [Option.isSome_some, true_iff]
      simpa [List.map_map, Function.comp] using hgt
    · rename_i hle
      simp only [Option.isSome_none, false_iff, not_lt]
      simpa [List.map_map, Function.comp, not_lt] using hle
  · decide

/-- Masking an 8-bit value with `0xFF` is the identity. -/
theorem land_255_of_lt (x : Nat) (hx : x < 256) : x &&& 255 = x := by
  apply Nat.eq_of_testBit_eq
  intro i
  rw [Nat.testBit_land]
  by_cases hi : i < 8
  · have h255 : (255 : Nat).testBit i = true := by interval_cases i <;> decide
    simp [h255]
  · have hpow : (256 : Nat) ≤ 2 ^ i := by
      calc (256 : Nat) = 2 ^ 8 := by norm_num
        _ ≤ 2 ^ i := Nat.pow_le_pow_right (by norm_num) (by omega)
    have hxi : x.testBit i = false :=
      Nat.testBit_eq_false_of_lt (lt_of_lt_of_le hx hpow)
    simp [hxi]

/-- Setting bit 0 keeps an 8-bit value 8-bit. -/
theorem or_one_lt_256 (b : Nat) (hb : b < 256) : b ||| 1 < 256 := by
  have h := Nat.or_lt_two_pow (x := b) (y := 1) (n := 8) (by norm_num [hb]) (by norm_num)
  simpa using h

/-- Bit 0 of `b ||| 1` is set. -/
theorem or_one_bit0 (b : Nat) : ((b ||| 1) >>> 0) &&& 1 = 1 := by
  rw [Nat.shiftRight_zero, Nat.and_one_is_mod]
  have h := Nat.testBit_lor b 1 0
  rw [Nat.testBit_to_div_mod, Nat.testBit_to_div_mod, Nat.testBit_to_div_mod] at h
  simp only [pow_zero, Nat.div_one] at h
  have hb2 := Nat.mod_two_eq_zero_or_one (b ||| 1)
  rcases hb2 with h0 | h1
  · exfalso
    rw [h0] at h
    simp at h
  · exact h1

/-- Every bit other than bit 0 is unchanged by `||| 1`. -/
theorem or_one_bit_ne (b i : Nat) (hi : i ≠ 0) :
    ((b ||| 1) >>> i) &&& 1 = (b >>> i) &&& 1 := by
  rw [Nat.and_one_is_mod, Nat.and_one_is_mod, Nat.shiftRight_eq_div_pow,
    Nat.shiftRight_eq_div_pow]
  have h := Nat.testBit_lor b 1 i
  have h1 : (1 : Nat).testBit i = false := by
    rw [show (1 : Nat) = 2 ^ 0 from rfl, Nat.testBit_two_pow]
    simp [Ne.symm hi]
  rw [h1, Bool.or_false] at h
  rw [Nat.testBit_to_div_mod, Nat.testBit_to_div_mod] at h
  have ha := Nat.mod_two_eq_zero_or_one ((b ||| 1) / 2 ^ i)
  have hb := Nat.mod_two_eq_zero_or_one (b / 2 ^ i)
  rw [decide_eq_decide] at h
  omega

/-- Replacing a present key makes `find?` return the new binding. -/
theorem find_map_set (d : DevData) (k : String) (v : DevEntry)
    (h : d.any (fun kv => kv.1 == k) = true) :
    (d.map (fun kv => if kv.1 == k then (k, v) else kv)).find?
        (fun kv => kv.1 == k) = some (k, v) := by
  induction d with
  | nil => simp at h
  | cons hd tl ih =>
    by_cases hh : (hd.1 == k) = true
    · simp only [List.map_cons, if_pos hh]
      exact List.find?_cons_of_pos _ (by simp)
    · have h' : tl.any (fun kv => kv.1 == k) = true := by
        rcases List.any_eq_true.1 h with ⟨x, hx, hxk⟩
        rcases List.mem_cons.1 hx with rfl | hx
        · exact absurd hxk hh
        · exact List.any_eq_true.2 ⟨x, hx, hxk⟩
      simp only [List.map_cons, if_neg hh]
      rw [List.find?_cons_of_neg _ (by simpa using hh)]
      exact ih h'

/-- Looking up the key just stored in the dev table yields the new record. -/
theorem dictGet_dictSet_self (d : DevData) (k : String) (v : DevEntry) :
    dictGet (dictSet d k v) k = some v := by
  unfold dictGet dictSet
  by_cases hany : d.any (fun kv => kv.1 == k) = true
  · rw [if_pos hany, find_map_set d k v hany]
    rfl
  · rw [if_neg hany]
    have hnone : d.find? (fun kv => kv.1 == k) = none := by
      rw [List.find?_eq_none]
      intro x hx hxk
      exact hany (List.any_eq_true.2 ⟨x, hx, hxk⟩)
    rw [List.find?_append, hnone, Option.none_or]
    rw [List.find?_cons_of_pos _ (by simp)]
    rfl

/-- `find?` for channel 9 in the decoded channel list. -/
theorem digital_channels_find_9 (a b : Nat) :
    (digital_channels a b).find? (fun kv => kv.1 == "9") =
      some ("9", if (b >>> 0) &&& 1 = 1 then 1 else 0) := rfl

/-- C5: in simulation mode, writing channel 9 = 1 on a digital-output
module and then reading it back yields channel `"9"` equal to 1 and
`gpio_b = b0 ||| 1` — bit 0 set, every other bit of both ports unchanged
(`gpio_a` is returned verbatim), for every prior 8-bit port state. -/
theorem C5_sim_write_then_read (cfg : ControllerConfig) (dev : DevData) (mid : String)
    (idx : Nat) (m : ModuleEntry) (e : DevEntry) (a0 b0 : Nat)
    (hfind : find_module_index cfg.modules mid = some (idx, m))
    (htype : m.type = "do")
    (hget : dictGet dev (pyLower m.address_hex) = some e)
    (ha : e.gpio_a = some a0) (hb : e.gpio_b = some b0)
    (ha8 : a0 < 256) (hb8 : b0 < 256) :
    write_module cfg true dev mid 9 1 =
      .ret { ok := true, module_id := some m.id, type := some m.type,
             address := some m.address_hex, gpio_a := some a0, gpio_b := some (b0 ||| 1),
             channelsD := some (digital_channels a0 (b0 ||| 1)) }
        (dictSet dev (pyLower m.address_hex) { gpio_a := some a0, gpio_b := some (b0 ||| 1) }) ∧
    read_module cfg true
        (dictSet dev (pyLower m.address_hex) { gpio_a := some a0, gpio_b := some (b0 ||| 1) })
        mid =
      .ret { ok := true, module_id := some m.id, type := some m.type,
             address := some m.address_hex, gpio_a := some a0, gpio_b := some (b0 ||| 1),
             channelsD := some (digital_channels a0 (b0 ||| 1)) } ∧
    (digital_channels a0 (b0 ||| 1)).find? (fun kv => kv.1 == "9") = some ("9", 1) ∧
    ((b0 ||| 1) >>> 0) &&& 1 = 1 ∧
    (∀ i, i ≠ 0 → ((b0 ||| 1) >>> i) &&& 1 = (b0 >>> i) &&& 1) := by
  have hmask : (b0 ||| 1) &&& 255 = b0 ||| 1 :=
    land_255_of_lt _ (or_one_lt_256 b0 hb8)
  have hpy : pyInt 1 = 1 := by with_unfolding_all decide
  refine ⟨?_, ?_, ?_, or_one_bit0 b0, fun i hi => or_one_bit_ne b0 i hi⟩
  · simp [write_module, hfind, htype, hget, ha, hb, hpy, hmask]
  · have hget2 := dictGet_dictSet_self dev (pyLower m.address_hex)
      { gpio_a := some a0, gpio_b := some (b0 ||| 1) }
    simp [read_module, hfind, htype, dev_lookup, hget2]
  · rw [digital_channels_find_9, if_pos (or_one_bit0 b0)]

/-- Witness for C5: a concrete digital-output module at `0x21` with prior
ports `gpio_a = 5`, `gpio_b = 0xA0`. -/
theorem C5_sim_write_then_read_witness :
    write_module { modules := [⟨"i2c1-0x21", "do", "0x21", ""⟩] } true
        [("0x21", { gpio_a := some 5, gpio_b := some 160 })] "i2c1-0x21" 9 1 =
      .ret { ok := true, module_id := some "i2c1-0x21", type := some "do",
             address := some "0x21", gpio_a := some 5, gpio_b := some 161,
             channelsD := some (digital_channels 5 161) }
        [("0x21", { gpio_a := some 5, gpio_b := some 161 })] ∧
    (digital_channels 5 161).find? (fun kv => kv.1 == "9") = some ("9", 1) := by
  have h := C5_sim_write_then_read { modules := [⟨"i2c1-0x21", "do", "0x21", ""⟩] }
    [("0x21", { gpio_a := some 5, gpio_b := some 160 })] "i2c1-0x21"
    0 ⟨"i2c1-0x21", "do", "0x21", ""⟩ { gpio_a := some 5, gpio_b := some 160 } 5 160
    (by decide) rfl (by decide) rfl rfl (by decide) (by decide)
  exact ⟨h.1, h.2.2.1⟩

/-- Registry with one digital-output module for the C6 scenario. -/
def c6cfg : ControllerConfig := { modules := [⟨"i2c1-0x21", "do", "0x21", ""⟩] }

/-- Dev table with channel 1 initially on. -/
def c6dev : DevData := [("0x21", { gpio_a := some 1, gpio_b := some 0 })]

/-- C6 is false on the code: the value 0.5 lies outside the set containing
0 and 1, yet the digital-output write accepts it — `int(value)` truncates
0.5 to 0, the call returns ok, and the simulated state changes (the
channel-1 bit is cleared from 1 to 0). -/
theorem C6_counterexample :
    write_module c6cfg true c6dev "i2c1-0x21" 1 (1 / 2) =
      .ret { ok := true, module_id := some "i2c1-0x21", type := some "do",
             address := some "0x21", gpio_a := some 0, gpio_b := some 0,
             channelsD := some (digital_channels 0 0) }
        [("0x21", { gpio_a := some 0, gpio_b := some 0 })] := by
  with_unfolding_all decide

/-- C6 (amended): a digital-output write whose channel lies outside 1..16,
or whose value truncates under Python `int()` to something other than 0 or
1, returns a structured ok-false result before any hardware access and
with the dev table unchanged; values like 0.5 that truncate into the set
are accepted instead. -/
theorem C6_do_write_validation (cfg : ControllerConfig) (dev_mode : Bool) (dev : DevData)
    (mid : String) (idx : Nat) (m : ModuleEntry) (channel : Int) (value : ℚ)
    (hfind : find_module_index cfg.modules mid = some (idx, m))
    (htype : m.type = "do")
    (hbad : ¬(1 ≤ channel ∧ channel ≤ 16) ∨ (pyInt value ≠ 0 ∧ pyInt value ≠ 1)) :
    write_module cfg dev_mode dev mid channel value =
      .ret { ok := false,
             error := some (if 1 ≤ channel ∧ channel ≤ 16 then "value must be 0 or 1"
                            else "channel must be 1..16") } dev := by
  by_cases hchan : 1 ≤ channel ∧ channel ≤ 16
  · obtain ⟨hv0, hv1⟩ := hbad.resolve_left (not_not_intro hchan)
    simp [write_module, hfind, htype, hchan, hv0, hv1]
  · simp [write_module, hfind, htype, hchan]

/-- Witness for C6 (amended): channel 17 and value 5 each fail with the
matching error and the dev table is returned unchanged. -/
theorem C6_do_write_validation_witness :
    write_module c6cfg true c6dev "i2c1-0x21" 17 1 =
      .ret { ok := false, error := some "channel must be 1..16" } c6dev ∧
    write_module c6cfg true c6dev "i2c1-0x21" 1 5 =
      .ret { ok := false, error := some "value must be 0 or 1" } c6dev := by
  constructor
  · exact C6_do_write_validation c6cfg true c6dev "i2c1-0x21" 0
      ⟨"i2c1-0x21", "do", "0x21", ""⟩ 17 1 (by decide) rfl (Or.inl (by decide))
  · exact C6_do_write_validation c6cfg true c6dev "i2c1-0x21" 0
      ⟨"i2c1-0x21", "do", "0x21", ""⟩ 1 5 (by decide) rfl (Or.inr (by with_unfolding_all decide))

/-- Registry with one analog module for the C2 scenario. -/
def c2cfg : ControllerConfig := { modules := [⟨"i2c1-0x30", "aio", "0x30", ""⟩] }

/-- Dev table simulating a 5.1 V reading on channel 3. -/
def c2dev : DevData := [("0x30", { raw_response := some "0.0,0.0,5.1" })]

/-- Ceiling document: 5.0 V on input channel 3. -/
def c2max : AioMaxCfg := { inCfg := [("3", some 5)] }

/-- C2 is false on the code: in simulation mode the dev branch of
`read_module` returns the decoded channels directly and never reaches the
over-voltage pass — reading 5.1 V on channel 3 yields a result with no
alert record at all (`alerts` key absent), regardless of the configured
5.0 V ceiling, which the dev branch never loads. -/
theorem C2_counterexample :
    read_module c2cfg true c2dev "i2c1-0x30" =
      .ret { ok := true, module_id := some "i2c1-0x30", type := some "aio",
             address := some "0x30", raw_response := some "0.0,0.0,5.1",
             channelsA := some [("1", some 0), ("2", some 0), ("3", some (51 / 10 : ℚ))],
             alerts := none } := by
  with_unfolding_all decide

/-- C2 (amended): the per-channel ceiling comparison runs on the
real-hardware read path only; there, a 5.0 V ceiling on channel 3 and a
decoded reading of 5.1 V yield exactly one alert record, for channel 3,
carrying measured value 5.1 — for every timestamp. -/
theorem C2_hw_overvoltage_alert (ts : String) :
    read_module_hw_aio ⟨"i2c1-0x30", "aio", "0x30", ""⟩ "0.0,0.0,5.1" c2max ts =
      { ok := true, module_id := some "i2c1-0x30", type := some "aio",
        address := some "0x30", raw_response := some "0.0,0.0,5.1",
        channelsA := some [("1", some 0), ("2", some 0), ("3", some (51 / 10 : ℚ))],
        alerts := some [⟨"i2c1-0x30", "0x30", 3, 5, some (51 / 10 : ℚ), ts⟩] } := by
  with_unfolding_all rfl

/-- C4: `change_module_address` on an analog module — guardrail failure
for every normalized address outside `[0x30, 0x37]`; collision failure when
a different module owns the new id; success inside the range otherwise,
updating the entry's address and id in place. -/
theorem C4_change_address_aio (cfg : ControllerConfig) (midArg newAddr : String)
    (idx : Nat) (m : ModuleEntry) (hexs : String) (v : Nat)
    (hfind : find_module_index cfg.modules (pyStrip midArg) = some (idx, m))
    (htype : m.type = "aio")
    (hnorm : normalize_address newAddr = .ok (hexs, v)) :
    (¬(AIO_BASE ≤ v ∧ v ≤ AIO_MAX) →
      change_module_address cfg midArg newAddr =
        .error "AIO addresses must be in 0x30–0x37 (AIO base + 3 DIP bits)")
    ∧ (∀ j m2, AIO_BASE ≤ v → v ≤ AIO_MAX →
        find_module_index cfg.modules (module_id hexs) = some (j, m2) → j ≠ idx →
        change_module_address cfg midArg newAddr =
          .error ("Another module already uses address " ++ hexs))
    ∧ (AIO_BASE ≤ v → v ≤ AIO_MAX →
        (find_module_index cfg.modules (module_id hexs) = none ∨
          ∃ m2, find_module_index cfg.modules (module_id hexs) = some (idx, m2)) →
        change_module_address cfg midArg newAddr =
          .ok ({ cfg with modules :=
                   cfg.modules.set idx { m with address_hex := hexs, id := module_id hexs } },
               { m with address_hex := hexs, id := module_id hexs })) := by
  have hdido : ¬((m.type = "di" ∨ m.type = "do") ∧
      ¬(MCP23017_MIN ≤ v ∧ v ≤ MCP23017_MAX)) := by
    simp [htype]
  refine ⟨?_, ?_, ?_⟩
  · intro hout
    simp only [change_module_address, hfind, hnorm]
    rw [if_neg hdido, if_pos ⟨htype, hout⟩]
  · intro j m2 h1 h2 hcol hne
    simp only [change_module_address, hfind, hnorm]
    rw [if_neg hdido, if_neg (fun hc => hc.2 ⟨h1, h2⟩)]
    simp only [hcol]
    rw [if_pos hne]
  · intro h1 h2 hok
    simp only [change_module_address, hfind, hnorm]
    rw [if_neg hdido, if_neg (fun hc => hc.2 ⟨h1, h2⟩)]
    rcases hok with hnone | ⟨m2, hsome⟩
    · simp only [hnone]
    · simp only [hsome]
      rw [if_neg (by simp)]

/-- Registry for the C4 witness: an analog module at `0x30`, a second
analog module at `0x31`, and a digital module at `0x21`. -/
def c4cfg : ControllerConfig :=
  { modules := [⟨"i2c1-0x30", "aio", "0x30", "adc"⟩,
                ⟨"i2c1-0x31", "aio", "0x31", ""⟩,
                ⟨"i2c1-0x21", "do", "0x21", ""⟩] }

/-- Witness for C4: moving the analog module to `0x29` hits the guardrail,
to `0x31` hits the collision with the other analog module, and to `0x35`
succeeds updating both the address and the derived id. -/
theorem C4_change_address_aio_witness :
    change_module_address c4cfg "i2c1-0x30" "0x29" =
      .error "AIO addresses must be in 0x30–0x37 (AIO base + 3 DIP bits)" ∧
    change_module_address c4cfg "i2c1-0x30" "0x31" =
      .error "Another module already uses address 0x31" ∧
    change_module_address c4cfg "i2c1-0x30" "0x35" =
      .ok ({ modules := [⟨"i2c1-0x35", "aio", "0x35", "adc"⟩,
                         ⟨"i2c1-0x31", "aio", "0x31", ""⟩,
                         ⟨"i2c1-0x21", "do", "0x21", ""⟩] },
           ⟨"i2c1-0x35", "aio", "0x35", "adc"⟩) := by
  refine ⟨?_, ?_, ?_⟩
  · exact (C4_change_address_aio c4cfg "i2c1-0x30" "0x29" 0
      ⟨"i2c1-0x30", "aio", "0x30", "adc"⟩ "0x29" 0x29
      (by decide) rfl (by decide)).1 (by decide)
  · exact (C4_change_address_aio c4cfg "i2c1-0x30" "0x31" 0
      ⟨"i2c1-0x30", "aio", "0x30", "adc"⟩ "0x31" 0x31
      (by decide) rfl (by decide)).2.1 1 ⟨"i2c1-0x31", "aio", "0x31", ""⟩
      (by decide) (by decide) (by decide) (by decide)
  · exact (C4_change_address_aio c4cfg "i2c1-0x30" "0x35" 0
      ⟨"i2c1-0x30", "aio", "0x30", "adc"⟩ "0x35" 0x35
      (by decide) rfl (by decide)).2.2 (by decide) (by decide) (.inl (by decide))

/-- Resolution depends on the id only through its lowercase form. -/
theorem find_module_index_congr (mods : List ModuleEntry) {s t : String}
    (h : pyLower s = pyLower t) :
    find_module_index mods s = find_module_index mods t := by
  unfold find_module_index
  congr 1
  funext p
  rw [h]

/-- C10: module-id lookup is case-insensitive — two ids equal up to letter
case resolve to the same index and entry, and every registry operation
(`remove`, `rename`, `change_module_address`, `read_module`,
`write_module`) behaves identically on them once the id resolves. -/
theorem C10_case_insensitive_ids (cfg : ControllerConfig) (dev_mode : Bool) (dev : DevData)
    (mid1 mid2 newName newAddr : String) (channel : Int) (value : ℚ)
    (h1 : pyLower mid1 = pyLower mid2)
    (h2 : pyLower (pyStrip mid1) = pyLower (pyStrip mid2)) :
    find_module_index cfg.modules mid1 = find_module_index cfg.modules mid2 ∧
    find_module_index cfg.modules (pyStrip mid1) =
      find_module_index cfg.modules (pyStrip mid2) ∧
    (∀ p, find_module_index cfg.modules (pyStrip mid1) = some p →
      remove_module cfg mid1 = remove_module cfg mid2 ∧
      rename_module cfg mid1 newName = rename_module cfg mid2 newName ∧
      change_module_address cfg mid1 newAddr = change_module_address cfg mid2 newAddr) ∧
    (∀ p, find_module_index cfg.modules mid1 = some p →
      read_module cfg dev_mode dev mid1 = read_module cfg dev_mode dev mid2 ∧
      write_module cfg dev_mode dev mid1 channel value =
        write_module cfg dev_mode dev mid2 channel value) := by
  have hfind1 := find_module_index_congr cfg.modules h1
  have hfind2 := find_module_index_congr cfg.modules h2
  refine ⟨hfind1, hfind2, ?_, ?_⟩
  · rintro ⟨idx, m⟩ hp
    have hp2 : find_module_index cfg.modules (pyStrip mid2) = some (idx, m) :=
      hfind2 ▸ hp
    refine ⟨?_, ?_, ?_⟩
    · simp only [remove_module, hp, hp2]
    · simp only [rename_module, hp, hp2]
    · simp only [change_module_address, hp, hp2]
  · rintro ⟨idx, m⟩ hp
    have hp2 : find_module_index cfg.modules mid2 = some (idx, m) := hfind1 ▸ hp
    exact ⟨by simp only [read_module, hp, hp2],
           by simp only [write_module, hp, hp2]⟩

/-- Registry for the C10 witness. -/
def c10cfg : ControllerConfig := { modules := [⟨"i2c1-0x21", "do", "0x21", ""⟩] }

/-- Witness for C10: the upper-case spelling `"I2C1-0X21"` resolves and
behaves exactly like the stored id `"i2c1-0x21"`. -/
theorem C10_case_insensitive_ids_witness :
    remove_module c10cfg "I2C1-0X21" = remove_module c10cfg "i2c1-0x21" ∧
    read_module c10cfg true [] "I2C1-0X21" = read_module c10cfg true [] "i2c1-0x21" := by
  have h := C10_case_insensitive_ids c10cfg true [] "I2C1-0X21" "i2c1-0x21" "x" "0x22" 1 1
    (by decide) (by decide)
  exact ⟨(h.2.2.1 (0, ⟨"i2c1-0x21", "do", "0x21", ""⟩) (by decide)).1,
         (h.2.2.2 (0, ⟨"i2c1-0x21", "do", "0x21", ""⟩) (by decide)).1⟩

/-- Witness for C2 (amended) at a concrete timestamp. -/
theorem C2_hw_overvoltage_alert_witness :
    read_module_hw_aio ⟨"i2c1-0x30", "aio", "0x30", ""⟩ "0.0,0.0,5.1" c2max "T" =
      { ok := true, module_id := some "i2c1-0x30", type := some "aio",
        address := some "0x30", raw_response := some "0.0,0.0,5.1",
        channelsA := some [("1", some 0), ("2", some 0), ("3", some (51 / 10 : ℚ))],
        alerts := some [⟨"i2c1-0x30", "0x30", 3, 5, some (51 / 10 : ℚ), "T"⟩] } :=
  C2_hw_overvoltage_alert "T"

/-- Witness for C3 (amended) at concrete paths. -/
theorem C3_dev_save_atomic_witness :
    ((save_dev_data_ops "cfgdir" "cfgdir/dev_i2c.json" "<json>").any
      (fun op => match op with | .write p _ => p == "cfgdir/dev_i2c.json" | _ => false)) = false ∧
    FileOp.replace "cfgdir/dev_i2c.json.tmp" "cfgdir/dev_i2c.json" ∈
      save_dev_data_ops "cfgdir" "cfgdir/dev_i2c.json" "<json>" ∧
    ((save_config_ops "cfgdir" "cfgdir/config.json" "<json>").any
      (fun op => match op with | .replace _ _ => true | _ => false)) = false := by
  have h := C3_dev_save_atomic "cfgdir" "cfgdir/dev_i2c.json" "<json>"
  exact ⟨h.1, h.2.1, h.2.2 "cfgdir" "cfgdir/config.json" "<json>"⟩

/-- Witness for C9 at a concrete pair of disagreeing maps. -/
theorem C9_cross_module_pass_witness :
    (cross_error_for [("di", [(25, "SIG_A")]), ("do", [(25, "SIG_B")])] 25).isSome ↔
      ∃ e1 ∈ [("di", [(25, "SIG_A")]), ("do", [(25, "SIG_B")])],
        ∃ e2 ∈ [("di", [(25, "SIG_A")]), ("do", [(25, "SIG_B")])],
          pyUpper (get_pin_net e1.2 25) ≠ pyUpper (get_pin_net e2.2 25) :=
  C9_cross_module_pass.1 [("di", [(25, "SIG_A")]), ("do", [(25, "SIG_B")])] 25

end HomeController
